/-
Verification of the audio-delivery scoring engine: a shallow embedding of
`src/lib/lufsNormalization.ts` (LUFS gating, normalization, calibration
profiles) and of the analysis pipeline (metric configuration, segment
analyzers, score aggregation), with theorems settling the specified
properties of those functions.

Modelling conventions:
* JS `number` values carried by audio buffers and loudness math are modelled
  as exact reals (`ℝ`); configuration scalars, voice-activity metrics and
  calibration-profile scalars, which only ever hold decimal literals and
  results of field arithmetic on them, are modelled as exact rationals (`ℚ`)
  so that concrete instances evaluate by `decide`.
* The JS value `-Infinity` produced and consumed by `calculateLUFS` is
  modelled as `none : Option ℝ` (`isFinite` checks become `Option` matches).
* `localStorage`, `Date.now()` and the remote database are modelled by
  explicit parameters (a profile list, a `now` argument, a row list).
-/
import Mathlib

namespace LufsNorm

/-- An audio buffer (JS `Float32Array`), as a list of exact reals. -/
abbrev Buffer := List ℝ

/-- `export const TARGET_LUFS = -23`. -/
def TARGET_LUFS : ℚ := -23

/-- `const MAX_RECORDING_HISTORY = 10`. -/
def MAX_RECORDING_HISTORY : ℕ := 10

/-- `const VARIANCE_THRESHOLD = 5`. -/
def VARIANCE_THRESHOLD : ℚ := 5

/-- `const blockSize = Math.floor(sampleRate * 0.4)`. -/
def blockSize (sampleRate : ℕ) : ℕ := 2 * sampleRate / 5

/-- `const overlap = Math.floor(blockSize * 0.75)` (0.75 is exact in floats). -/
def overlap (bs : ℕ) : ℕ := 3 * bs / 4

/-- `const hop = Math.max(1, blockSize - overlap)`. -/
def hop (bs : ℕ) : ℕ := max 1 (bs - overlap bs)

/-- Number of iterations of `for (let i = 0; i < len - size; i += step)`:
zero when `len ≤ size` (the JS bound is then `≤ 0`), else `⌈(len-size)/step⌉`. -/
def strictLoopCount (len size step : ℕ) : ℕ := (len - size + step - 1) / step

noncomputable section

/-- Mean square of the block of `size` samples starting at `start`
(`sum += s * s` over the block, then `sum / blockSize`). -/
def blockMeanSquare (buf : Buffer) (start size : ℕ) : ℝ :=
  (((buf.drop start).take size).map fun s => s * s).sum / size

/-- The list `blocks` built by the first loop of `calculateMeanSquareWithGating`. -/
def blocksOf (buf : Buffer) (sampleRate : ℕ) : List ℝ :=
  (List.range (strictLoopCount buf.length (blockSize sampleRate)
      (hop (blockSize sampleRate)))).map
    fun b => blockMeanSquare buf (b * hop (blockSize sampleRate)) (blockSize sampleRate)

/-- `const absoluteGate = Math.pow(10, -70 / 10)`. -/
def absoluteGate : ℝ := 1 / 10000000

/-- `const gated = blocks.filter((ms) => ms >= absoluteGate)`. -/
def gatedBlocks (buf : Buffer) (sr : ℕ) : List ℝ :=
  (blocksOf buf sr).filter fun ms => decide (absoluteGate ≤ ms)

/-- `const avg = gated.reduce((a, b) => a + b, 0) / gated.length`. -/
def gatedAvg (buf : Buffer) (sr : ℕ) : ℝ :=
  (gatedBlocks buf sr).sum / (gatedBlocks buf sr).length

/-- `const relativeGate = avg * Math.pow(10, -10 / 10)`. -/
def relativeGate (buf : Buffer) (sr : ℕ) : ℝ := gatedAvg buf sr * (1 / 10)

/-- `const finalBlocks = gated.filter((ms) => ms >= relativeGate)`. -/
def survivingBlocks (buf : Buffer) (sr : ℕ) : List ℝ :=
  (gatedBlocks buf sr).filter fun ms => decide (relativeGate buf sr ≤ ms)

/-- `calculateMeanSquareWithGating`: block mean squares, absolute gate at
−70 dB, relative gate at (average − 10 dB); returns 0 when no blocks exist or
none pass the absolute gate, the ungated-average fallback `avg` when the
relative gate empties the list, and the mean of the surviving blocks otherwise. -/
def calculateMeanSquareWithGating (buf : Buffer) (sr : ℕ) : ℝ :=
  if blocksOf buf sr = [] then 0
  else if gatedBlocks buf sr = [] then 0
  else if survivingBlocks buf sr = [] then gatedAvg buf sr
  else (survivingBlocks buf sr).sum / (survivingBlocks buf sr).length

/-- `calculateLUFS`: `-Infinity` (here `none`) for an empty buffer or a zero
gated mean square, else `-0.691 + 10 * Math.log10(meanSquare)`. -/
def calculateLUFS (buf : Buffer) (sr : ℕ) : Option ℝ :=
  if buf = [] then none
  else if calculateMeanSquareWithGating buf sr = 0 then none
  else some (-0.691 + 10 * Real.logb 10 (calculateMeanSquareWithGating buf sr))

/-- Result record of `normalizeToLUFS` (field `currentLUFS = none` models
`-Infinity`). -/
structure NormalizeResult where
  normalized : Buffer
  currentLUFS : Option ℝ
  gainDB : ℝ
  gainLinear : ℝ

/-- `normalizeToLUFS`: when the measured loudness is not finite the input
buffer is returned unchanged with gain 1; otherwise every sample is scaled by
`10^((target-current)/20)` and clipped to [-1, 1]. -/
def normalizeToLUFS (buf : Buffer) (sr : ℕ) (targetLUFS : ℝ) : NormalizeResult :=
  match calculateLUFS buf sr with
  | none => ⟨buf, none, 0, 1⟩
  | some current =>
      let gainDB := targetLUFS - current
      let gainLinear := (10 : ℝ) ^ (gainDB / 20)
      ⟨buf.map fun s => max (-1) (min 1 (s * gainLinear)), some current, gainDB, gainLinear⟩

end

/-- `RecordingStats`: immutable per-recording sample. Loudness fields hold JS
numbers; histories considered by the recalibration heuristics are real-valued. -/
structure RecordingStats where
  timestamp : ℚ
  originalLUFS : ℝ
  calibratedLUFS : ℝ
  finalLUFS : ℝ
  noiseFloor : ℝ

/-- `CalibrationProfile` (the optional `recordingHistory` is modelled as a
plain list, `undefined` as `[]`, which is how every consumer treats it). -/
structure CalibrationProfile where
  deviceId : String
  deviceLabel : String
  noiseFloor : ℚ
  referenceLevel : ℚ
  gainAdjustment : ℝ
  createdAt : ℚ
  lastUsed : ℚ
  recordingHistory : List RecordingStats

/-- The `localStorage` array under `audio_calibration_profiles`. -/
abbrev ProfileStore := List CalibrationProfile

/-- `saveCalibrationProfile`: replace the first profile with the same
`deviceId` (`findIndex`), else push at the end. -/
def saveCalibrationProfile (store : ProfileStore) (p : CalibrationProfile) : ProfileStore :=
  match store.findIdx? (fun q => q.deviceId == p.deviceId) with
  | some i => store.set i p
  | none => store ++ [p]

/-- `getCalibrationProfile`: find by device id; on a hit, touch `lastUsed`
with the current time and save the touched profile back. Returns the profile
(as the caller sees it) and the updated store. -/
def getCalibrationProfile (store : ProfileStore) (d : String) (now : ℚ) :
    Option CalibrationProfile × ProfileStore :=
  match store.find? (fun p => p.deviceId == d) with
  | none => (none, store)
  | some p =>
      let p2 := { p with lastUsed := now }
      (some p2, saveCalibrationProfile store p2)

/-- `deleteCalibrationProfile`: keep exactly the profiles whose id differs. -/
def deleteCalibrationProfile (store : ProfileStore) (d : String) : ProfileStore :=
  store.filter fun p => p.deviceId != d

/-- The history update inside `trackRecording`: push the new entry, and when
the list now exceeds `MAX_RECORDING_HISTORY`, keep the last
`MAX_RECORDING_HISTORY` entries (`slice(-MAX_RECORDING_HISTORY)`). -/
def trackHistory (h : List RecordingStats) (s : RecordingStats) : List RecordingStats :=
  if MAX_RECORDING_HISTORY < (h ++ [s]).length then
    (h ++ [s]).drop ((h ++ [s]).length - MAX_RECORDING_HISTORY)
  else h ++ [s]

/-- `trackRecording`: look the profile up (touching `lastUsed`), append the
stats stamped with the current time to its ring-bounded history, save. -/
def trackRecording (store : ProfileStore) (d : String) (stats : RecordingStats) (now : ℚ) :
    ProfileStore :=
  match getCalibrationProfile store d now with
  | (none, store1) => store1
  | (some p, store1) =>
      saveCalibrationProfile store1
        { p with recordingHistory := trackHistory p.recordingHistory { stats with timestamp := now } }

noncomputable section

/-- `calculateNoiseFloor`: dB of the RMS of the first 100 ms
(floored at 1e-10); `none` models the `-Infinity` of an empty segment. -/
def calculateNoiseFloor (buf : Buffer) (sr : ℕ) : Option ℝ :=
  let seg := buf.take (min (sr / 10) buf.length)
  if seg = [] then none
  else some (20 * Real.logb 10
    (max (Real.sqrt ((seg.map fun s => s * s).sum / seg.length)) (1 / 10000000000)))

/-- `createCalibrationProfile`: gain `10^((target-reference)/20)` clamped to
[0.1, 10], fresh timestamps, empty history. -/
def createCalibrationProfile (deviceId deviceLabel : String) (noiseFloor referenceLevel : ℚ)
    (targetLevel : ℚ) (now : ℚ) : CalibrationProfile :=
  let gainDB : ℚ := targetLevel - referenceLevel
  let gainAdjustment : ℝ := (10 : ℝ) ^ (((gainDB : ℝ)) / 20)
  ⟨deviceId, deviceLabel, noiseFloor, referenceLevel,
    max (1 / 10) (min 10 gainAdjustment), now, now, []⟩

/-- The body of `calcStd` after the length guard: population variance
(`sq.reduce(..)/values.length` of `Math.pow(v - mean, 2)`). -/
def calcVariance (values : List ℝ) : ℝ :=
  let mean := values.sum / values.length
  ((values.map fun v => (v - mean) ^ 2).sum) / values.length

/-- `calcStd`: 0 for fewer than 3 values, else the population standard
deviation. -/
def calcStd (values : List ℝ) : ℝ :=
  if values.length < 3 then 0 else Real.sqrt (calcVariance values)

/-- The reason strings of `RecalibrationSuggestion`, abstracted to carriers of
the interpolated numbers (`toFixed`/`Math.floor` formatting is not modelled). -/
inductive RecalReason where
  | highVariance (v : ℝ)
  | noiseChanged (v : ℝ)
  | staleDays (days : ℤ)

/-- `RecalibrationSuggestion` (absent optional fields are `none`). -/
structure RecalibrationSuggestion where
  shouldRecalibrate : Bool
  reason : Option RecalReason
  variance : Option ℝ
  threshold : Option ℚ

/-- The per-profile body of `checkRecalibrationNeeded`: no suggestion under 3
history entries; then LUFS-variance, noise-variance and age triggers in order. -/
def checkRecalibrationProfile (p : CalibrationProfile) (now : ℚ) : RecalibrationSuggestion :=
  if p.recordingHistory.length < 3 then ⟨false, none, none, none⟩
  else
    let lufsVar := calcStd (p.recordingHistory.map fun h => h.originalLUFS)
    if (VARIANCE_THRESHOLD : ℝ) < lufsVar then
      ⟨true, some (.highVariance lufsVar), some lufsVar, some VARIANCE_THRESHOLD⟩
    else
      let noiseVar := calcStd (p.recordingHistory.map fun h => h.noiseFloor)
      if (10 : ℝ) < noiseVar then
        ⟨true, some (.noiseChanged noiseVar), some noiseVar, some 10⟩
      else
        let daysSince : ℚ := (now - p.createdAt) / (1000 * 60 * 60 * 24)
        if 30 < daysSince then ⟨true, some (.staleDays ⌊daysSince⌋), none, none⟩
        else ⟨false, none, none, none⟩

/-- `checkRecalibrationNeeded`: look up the device's profile (touching
`lastUsed`), then apply the heuristics above; no profile means no suggestion. -/
def checkRecalibrationNeeded (store : ProfileStore) (d : String) (now : ℚ) :
    RecalibrationSuggestion :=
  match (getCalibrationProfile store d now).1 with
  | none => ⟨false, none, none, none⟩
  | some p => checkRecalibrationProfile p now

/-- Result record of `calibrateAndNormalize`. -/
structure CalibrateResult where
  normalized : Buffer
  originalLUFS : Option ℝ
  calibratedLUFS : Option ℝ
  finalLUFS : Option ℝ
  deviceGain : ℝ
  normalizationGain : ℝ

/-- `calibrateAndNormalize`: measure, apply the device gain (clipped) when a
profile with gain ≠ 1 exists, normalize to target, measure again, and track
the recording on the device's profile. Returns the result and the updated
store. Non-finite loudness values are stored into the history's real-valued
fields as 0 (the JS code stores `-Infinity` there; no property below depends
on histories written by this function). -/
def calibrateAndNormalize (store : ProfileStore) (buf : Buffer) (sr : ℕ)
    (deviceId : Option String) (targetLUFS : ℝ) (now : ℚ) :
    CalibrateResult × ProfileStore :=
  let originalLUFS := calculateLUFS buf sr
  let lookup : Option CalibrationProfile × ProfileStore :=
    match deviceId with
    | some d => getCalibrationProfile store d now
    | none => (none, store)
  let gp : ℝ × Buffer :=
    match lookup.1 with
    | some p =>
        if p.gainAdjustment ≠ 1 then
          (p.gainAdjustment, buf.map fun s => max (-1) (min 1 (s * p.gainAdjustment)))
        else (1, buf)
    | none => (1, buf)
  let calibratedLUFS := calculateLUFS gp.2 sr
  let nr := normalizeToLUFS gp.2 sr targetLUFS
  let finalLUFS := calculateLUFS nr.normalized sr
  let store2 :=
    match deviceId with
    | some d =>
        trackRecording lookup.2 d
          ⟨0, originalLUFS.getD 0, calibratedLUFS.getD 0, finalLUFS.getD 0,
            (calculateNoiseFloor buf sr).getD 0⟩ now
    | none => lookup.2
  (⟨nr.normalized, originalLUFS, calibratedLUFS, finalLUFS, gp.1, nr.gainLinear⟩, store2)

end

end LufsNorm

namespace Analysis

open LufsNorm

/-- `SpeechRateMethod` string union, as an enumeration. -/
inductive SpeechRateMethod where
  | energyPeaks
  | vadEnhanced
  | spectralFlux
  | deepgramStt
  | zeroCrossingRate
deriving DecidableEq

/-- `SpeechSegment` (fields `start`/`end` of the source, in milliseconds;
`end` is renamed `endMs` because it is a Lean keyword). -/
structure SpeechSegment where
  startMs : ℚ
  endMs : ℚ
  duration : ℚ
deriving DecidableEq

/-- `VADMetrics`, the externally supplied voice-activity description. -/
structure VADMetrics where
  speechSegments : List SpeechSegment
  totalSpeechTime : ℚ
  totalSilenceTime : ℚ
  speechRatio : ℚ
  isSpeaking : Bool
  speechProbability : ℚ
deriving DecidableEq

/-- The `thresholds` record of a `MetricConfig`. -/
structure Thresholds where
  min : ℚ
  ideal : ℚ
  max : ℚ
deriving DecidableEq

/-- `MetricConfig`. -/
structure MetricConfig where
  id : String
  weight : ℚ
  thresholds : Thresholds
  method : Option SpeechRateMethod
deriving DecidableEq

/-- `DEFAULT_CONFIG`, the compiled defaults. -/
def DEFAULT_CONFIG : List MetricConfig :=
  [⟨"volume", 40, ⟨-35, -15, 0⟩, none⟩,
   ⟨"speechRate", 40, ⟨90, 150, 220⟩, some .spectralFlux⟩,
   ⟨"acceleration", 5, ⟨0, 50, 100⟩, none⟩,
   ⟨"responseTime", 5, ⟨2000, 200, 0⟩, none⟩,
   ⟨"pauseManagement", 10, ⟨0, 0, 271 / 100⟩, none⟩]

/-- `DB_METRIC_MAP`: remote metric names onto internal metric ids. -/
def DB_METRIC_MAP (name : String) : Option String :=
  if name == "volume" then some "volume"
  else if name == "speech_rate" then some "speechRate"
  else if name == "end_intensity" then some "acceleration"
  else if name == "latency" then some "responseTime"
  else if name == "pauses" then some "pauseManagement"
  else none

/-- `getMetricConfig`: first entry with the given id. -/
def getMetricConfig (config : List MetricConfig) (id : String) : Option MetricConfig :=
  config.find? fun m => m.id == id

/-- The optional threshold fields of a parsed local-override entry. -/
structure StoredThresholds where
  min : Option ℚ
  ideal : Option ℚ
  max : Option ℚ
deriving DecidableEq

/-- One parsed entry of the `metricConfig` local-storage override
(`enabled` models JS truthiness of the `enabled` field). -/
structure StoredMetric where
  id : Option String
  weight : Option ℚ
  enabled : Bool
  thresholds : Option StoredThresholds
  method : Option SpeechRateMethod
deriving DecidableEq

/-- `getConfigFromLocalStorage` after JSON parsing: keep entries with an id,
`enabled` and positive weight; backfill missing thresholds and method from the
per-id compiled default; `none` when nothing remains (or nothing was stored —
the absent/unparsable cases are the `none` of the caller's argument). -/
def getConfigFromLocalStorage (parsed : List StoredMetric) : Option (List MetricConfig) :=
  let mapped := (parsed.filter fun m =>
      m.id.isSome && m.enabled && decide (0 < m.weight.getD 0)).map fun m =>
    let fallback := DEFAULT_CONFIG.find? fun d2 => some d2.id == m.id
    (⟨m.id.getD "", m.weight.getD 0,
      ⟨(m.thresholds.bind fun t => t.min).getD ((fallback.map fun f => f.thresholds.min).getD 0),
       (m.thresholds.bind fun t => t.ideal).getD
         ((fallback.map fun f => f.thresholds.ideal).getD 0),
       (m.thresholds.bind fun t => t.max).getD ((fallback.map fun f => f.thresholds.max).getD 0)⟩,
      m.method <|> (fallback.bind fun f => f.method)⟩ : MetricConfig)
  if mapped = [] then none else some mapped

/-- One row of the remote `scoring_config` table as the resolver reads it
(`weight` is NOT NULL in the schema; `min_value`/`max_value` are nullable). -/
structure ScoringRow where
  metric_name : String
  weight : ℚ
  min_value : Option ℚ
  max_value : Option ℚ
deriving DecidableEq

/-- One iteration of the row loop of `fetchConfigFromDB`: rows whose name maps
onto no internal id are skipped; a mapped row overwrites the metric's weight
with `Math.round(weight * 100)`, its `min` with `min_value`, its `ideal` with
`max_value`, and (for `pauseManagement` only) its `max` with `max_value`,
defaulting each missing value from the previous entry. -/
def applyRow (base : List MetricConfig) (row : ScoringRow) : List MetricConfig :=
  match DB_METRIC_MAP row.metric_name with
  | none => base
  | some id =>
      base.map fun prev =>
        if prev.id == id then
          ⟨prev.id, ((round (row.weight * 100) : ℤ) : ℚ),
           ⟨row.min_value.getD prev.thresholds.min,
            row.max_value.getD prev.thresholds.ideal,
            if id == "pauseManagement" then row.max_value.getD prev.thresholds.max
            else prev.thresholds.max⟩,
           prev.method⟩
        else prev

/-- `fetchConfigFromDB` on the fetched rows (a fetch error is the same as an
empty result: the compiled defaults). The source folds the rows over a
js `Map` seeded from `DEFAULT_CONFIG` in order, which updates in place. -/
def fetchConfigFromDB (rows : List ScoringRow) : List MetricConfig :=
  if rows = [] then DEFAULT_CONFIG else rows.foldl applyRow DEFAULT_CONFIG

/-- `getSpeechRateMethod`: the `speechRateMethod` local-storage override wins,
else the resolved speech-rate metric's method, else spectral flux. -/
def getSpeechRateMethod (config : List MetricConfig) (localMethod : Option SpeechRateMethod) :
    SpeechRateMethod :=
  match localMethod with
  | some m => m
  | none => ((getMetricConfig config "speechRate").bind fun m => m.method).getD .spectralFlux

/-- `Math.round(x * 10) / 10` on a real. -/
noncomputable def round1R (x : ℝ) : ℝ := ((round (x * 10) : ℤ) : ℝ) / 10

/-- `Math.round(x * 100) / 100` on a real. -/
noncomputable def round2R (x : ℝ) : ℝ := ((round (x * 100) : ℤ) : ℝ) / 100

/-- `Math.round(x * 100) / 100` on a rational. -/
def round2Q (x : ℚ) : ℚ := ((round (x * 100) : ℤ) : ℚ) / 100

/-- `calculateSegmentDb`: RMS of the whole buffer in dB, floored at 1e-10;
`none` models the `-Infinity` returned for an empty buffer. -/
noncomputable def calculateSegmentDb (buf : Buffer) : Option ℝ :=
  if buf = [] then none
  else some (20 * Real.logb 10
    (max (Real.sqrt ((buf.map fun s => s * s).sum / buf.length)) (1 / 10000000000)))

/-- `VolumeResult` (`averageDb = none` models `-Infinity`). -/
structure VolumeResult where
  averageDb : Option ℝ
  score : ℤ
  tag : String

/-- The piecewise raw volume score of `analyzeVolume` before clamping:
a 90→100→90 peak between `ideal` and `max` (symmetric around their
midpoint), −5 points per dB above `max`, a 0→90 ramp from `min` to `ideal`,
and 0 below `min`. -/
noncomputable def volumeScoreRaw (db : ℝ) (t : Thresholds) : ℝ :=
  if (t.ideal : ℝ) ≤ db ∧ db ≤ (t.max : ℝ) then
    let midpoint := ((t.ideal : ℝ) + (t.max : ℝ)) / 2
    if db ≤ midpoint then 90 + (db - (t.ideal : ℝ)) / (midpoint - (t.ideal : ℝ)) * 10
    else 100 - (db - midpoint) / ((t.max : ℝ) - midpoint) * 10
  else if (t.max : ℝ) < db then max 0 (90 - (db - (t.max : ℝ)) * 5)
  else if (t.min : ℝ) ≤ db then (db - (t.min : ℝ)) / ((t.ideal : ℝ) - (t.min : ℝ)) * 90
  else 0

/-- `analyzeVolume`: whole-buffer dB plus the device offset, scored
piecewise against the volume thresholds, rounded and clamped to [0, 100].
An empty buffer keeps the JS `-Infinity` dB (`none`) and scores 0. -/
noncomputable def analyzeVolume (audioBuffer : Buffer) (config : List MetricConfig)
    (deviceDbOffset : ℚ) : VolumeResult :=
  let t := ((getMetricConfig config "volume").map fun m => m.thresholds).getD ⟨-35, -15, 0⟩
  match calculateSegmentDb audioBuffer with
  | none => ⟨none, 0, "ENERGY"⟩
  | some db0 =>
      let db := db0 + (deviceDbOffset : ℝ)
      ⟨some (round1R db), round (max 0 (min 100 (volumeScoreRaw db t))), "ENERGY"⟩

/-- Per-frame mean-square energies of `detectSyllablesEnergy`
(`for (i = 0; i < len - frame; i += hop)`). -/
noncomputable def frameEnergies (buf : Buffer) (frame hp : ℕ) : List ℝ :=
  (List.range (strictLoopCount buf.length frame hp)).map fun b =>
    (((buf.drop (b * hp)).take frame).map fun s => s * s).sum / frame

/-- One step of the shared peak-count loops: accept index `i` as a peak when
its value exceeds the threshold, is a strict local maximum, and lies more
than `minGap` frames after the last accepted peak. -/
noncomputable def peakFold (vals : List ℝ) (threshold : ℝ) (minGap : ℤ) :
    ℕ × ℤ → ℕ → ℕ × ℤ := fun st i =>
  if threshold < vals.getD i 0 ∧ vals.getD (i - 1) 0 < vals.getD i 0 ∧
      vals.getD (i + 1) 0 < vals.getD i 0 ∧ minGap < (i : ℤ) - st.2 then
    (st.1 + 1, (i : ℤ))
  else st

/-- The peak-count loop over indices `1 .. length - 2`, with the given
minimum gap and initial `last` value. -/
noncomputable def peakCount (vals : List ℝ) (threshold : ℝ) (minGap initLast : ℤ) : ℕ :=
  ((List.range' 1 (vals.length - 1 - 1)).foldl (peakFold vals threshold minGap)
    (0, initLast)).1

/-- `detectSyllablesEnergy`: 20 ms frames, half-frame hop, threshold at 15% of
the maximum frame energy, peaks at least 4 frames apart (`i - last > 3`,
`last` starting at −10). -/
noncomputable def detectSyllablesEnergy (buf : Buffer) (sr : ℕ) : ℕ :=
  let frame := sr / 50
  let hp := max 1 (frame / 2)
  match frameEnergies buf frame hp with
  | [] => 0
  | e :: es => peakCount (e :: es) ((es.foldl max e) * (15 / 100)) 3 (-10)

/-- Magnitude of bin `k` of the direct 128-bin transform of the frame at
`start` (`real += s·cos(w·n)`, `imag -= s·sin(w·n)`, `w = 2πk/frameSize`). -/
noncomputable def frameSpectrum (buf : Buffer) (start frameSize : ℕ) (k : ℕ) : ℝ :=
  let w : ℝ := 2 * Real.pi * (k : ℝ) / (frameSize : ℝ)
  let re := ((List.range frameSize).map fun n => buf.getD (start + n) 0 * Real.cos (w * n)).sum
  let im := ((List.range frameSize).map fun n => -(buf.getD (start + n) 0 * Real.sin (w * n))).sum
  Real.sqrt (re * re + im * im)

/-- Number of iterations of `for (i = 0; i <= len - size; i += step)`. -/
def inclusiveLoopCount (len size step : ℕ) : ℕ :=
  if len < size then 0 else (len - size) / step + 1

/-- The spectral-flux list of `detectSyllablesSpectralFlux`: per frame, the
sum of positive bin-to-bin magnitude increases against the previous frame
(the all-zero spectrum before the first frame). The source threads `prev`
through the loop; indexing the previous frame directly is the same values. -/
noncomputable def fluxList (buf : Buffer) (sr : ℕ) : List ℝ :=
  let frameSize := sr / 50
  let hp := max 1 (frameSize / 2)
  (List.range (inclusiveLoopCount buf.length frameSize hp)).map fun i =>
    let spec := frameSpectrum buf (i * hp) frameSize
    let prev : ℕ → ℝ := if i = 0 then fun _ => 0 else frameSpectrum buf ((i - 1) * hp) frameSize
    ((List.range 128).map fun k => if 0 < spec k - prev k then spec k - prev k else 0).sum

/-- `detectSyllablesSpectralFlux`: adaptive threshold
`max(1.5·median, 0.5·(p75 or median))` over the sorted flux, peaks at least
5 frames apart (`i - last > 4`, `last` starting at −5), floored at 1 peak
when any frame exists. -/
noncomputable def detectSyllablesSpectralFlux (buf : Buffer) (sr : ℕ) : ℕ :=
  let flux := fluxList buf sr
  if flux = [] then 0
  else
    let sorted := flux.mergeSort fun a b => decide (a ≤ b)
    let median := sorted.getD (flux.length / 2) 0
    let p75v := sorted.getD (3 * flux.length / 4) 0
    let threshold := max (median * (3 / 2)) ((if p75v = 0 then median else p75v) * (1 / 2))
    max 1 (peakCount flux threshold 4 (-5))

/-- `scoreSpeechRate`: 0 at or under `min`, a linear ramp to 100 at `ideal`,
100 above. -/
def scoreSpeechRate (wpm : ℤ) (config : List MetricConfig) : ℚ :=
  let t := ((getMetricConfig config "speechRate").map fun m => m.thresholds).getD ⟨90, 150, 220⟩
  if wpm ≤ 0 then 0
  else if (wpm : ℚ) < t.min then 0
  else if (wpm : ℚ) < t.ideal then ((wpm : ℚ) - t.min) / (t.ideal - t.min) * 100
  else 100

/-- `SpeechRateResult`. -/
structure SpeechRateResult where
  wordsPerMinute : ℤ
  syllablesPerSecond : ℚ
  score : ℤ
  tag : String
  method : SpeechRateMethod
  transcript : Option String

/-- `analyzeSpeechRate` for calls that carry no `audioBlob` (the blob-based
transcription round trip is an external collaborator and is not modelled):
a supplied `sttWordCount` feeds the deepgram path directly; any other case —
or a word-per-minute result of 0 — falls back to the onset detectors, with
the spectral-flux detector exactly when the method is spectral flux. -/
noncomputable def analyzeSpeechRate (buf : Buffer) (sr : ℕ) (config : List MetricConfig)
    (durationSeconds : ℚ) (method : SpeechRateMethod) (sttWordCount : Option ℕ) :
    SpeechRateResult :=
  let wpm0 : ℤ :=
    if method = .deepgramStt ∧ sttWordCount.isSome then
      if 0 < durationSeconds then round ((sttWordCount.getD 0 : ℚ) / durationSeconds * 60)
      else 0
    else 0
  let wpm : ℤ :=
    if wpm0 = 0 then
      let syllables :=
        if method = .spectralFlux then detectSyllablesSpectralFlux buf sr
        else detectSyllablesEnergy buf sr
      let sps : ℚ := if 0 < durationSeconds then (syllables : ℚ) / durationSeconds else 0
      round (sps * 60 / (3 / 2))
    else wpm0
  let sps2 : ℚ := (wpm : ℚ) / 60 * (3 / 2)
  ⟨wpm, ((round (sps2 * 10) : ℤ) : ℚ) / 10,
   round (max 0 (min 100 (scoreSpeechRate wpm config))), "FLUENCY", method, none⟩

/-- `AccelerationResult` (`none` volumes model `-Infinity` for an empty half). -/
structure AccelerationResult where
  score : ℤ
  segment1Volume : Option ℝ
  segment2Volume : Option ℝ
  segment1Rate : ℤ
  segment2Rate : ℤ
  isAccelerating : Bool
  tag : String

/-- The per-half WPM estimate of `analyzeAcceleration`:
`round(flux-syllables / max(duration, 0.1) / 1.5 * 60)`. -/
noncomputable def halfRate (seg : Buffer) (sr : ℕ) : ℤ :=
  round ((detectSyllablesSpectralFlux seg sr : ℚ) / max ((seg.length : ℚ) / sr) (1 / 10)
    / (3 / 2) * 60)

/-- `analyzeAcceleration`: split at the midpoint, compare dB and estimated
rate of the halves. The dB difference of a half with `-Infinity` dB is junk
in the source (NaN); it is modelled as 0 and no property below reaches it. -/
noncomputable def analyzeAcceleration (buf : Buffer) (sr : ℕ) (config : List MetricConfig) :
    AccelerationResult :=
  let midpoint := buf.length / 2
  let seg1 := buf.take midpoint
  let seg2 := buf.drop midpoint
  let vol1 := calculateSegmentDb seg1
  let vol2 := calculateSegmentDb seg2
  let rate1 := halfRate seg1 sr
  let rate2 := halfRate seg2 sr
  let volumeIncrease : ℝ :=
    match vol2, vol1 with
    | some a, some b => a - b
    | _, _ => 0
  let rateIncrease : ℤ := rate2 - rate1
  ⟨round (max 0 (min 100 (50 + max 0 (volumeIncrease * 2 + (rateIncrease : ℝ) * (1 / 2))))),
   vol1.map round1R, vol2.map round1R, rate1, rate2,
   decide (0 < volumeIncrease) || decide (5 < rateIncrease), "DYNAMICS"⟩

/-- `ResponseTimeResult`. -/
structure ResponseTimeResult where
  responseTimeMs : ℤ
  score : ℤ
  tag : String

/-- `calculateAdaptiveNoiseFloor`: `max(0.005, 3·RMS(first 100 ms))`, 0.01
for an empty buffer. -/
noncomputable def calculateAdaptiveNoiseFloor (buf : Buffer) (sr : ℕ) : ℝ :=
  let seg := buf.take (min (sr / 10) buf.length)
  if seg = [] then 1 / 100
  else max (5 / 1000) (Real.sqrt ((seg.map fun s => s * s).sum / seg.length) * 3)

/-- `analyzeResponseTime`: the onset is the first sample above the adaptive
noise floor (0 when none is); 100 points at or under `ideal` ms, a 100→50
ramp to `min` ms, then decay to 0 over a further 3000 ms. -/
noncomputable def analyzeResponseTime (buf : Buffer) (sr : ℕ) (config : List MetricConfig) :
    ResponseTimeResult :=
  let t := ((getMetricConfig config "responseTime").map fun m => m.thresholds).getD
    ⟨2000, 200, 0⟩
  let noiseFloor := calculateAdaptiveNoiseFloor buf sr
  let first : ℕ := (buf.findIdx? fun s => decide (noiseFloor < |s|)).getD 0
  let responseTimeMs : ℤ := round ((first : ℚ) / (sr : ℚ) * 1000)
  let score : ℚ :=
    if (responseTimeMs : ℚ) ≤ t.ideal then 100
    else if (responseTimeMs : ℚ) ≤ t.min then
      100 - ((responseTimeMs : ℚ) - t.ideal) / (t.min - t.ideal) * 50
    else max 0 (50 * (1 - ((responseTimeMs : ℚ) - t.min) / 3000))
  ⟨responseTimeMs, round (max 0 (min 100 score)), "READINESS"⟩

/-- `PauseManagementResult`. -/
structure PauseManagementResult where
  pauseCount : ℕ
  avgPauseDuration : ℚ
  maxPauseDuration : ℚ
  pauseRatio : ℚ
  score : ℤ
  tag : String

/-- The intermediate figures both branches of `analyzePauses` produce. -/
structure PauseFigures where
  pauseRatio : ℚ
  pauseCount : ℕ
  maxPause : ℚ
  avgPause : ℚ

/-- The gap list of the VAD branch of `analyzePauses`: sort the segments by
start, collect the gaps a sweeping cursor sees, and the trailing gap to the
end of the buffer. All in milliseconds. -/
def vadGaps (segs : List SpeechSegment) (totalMs : ℚ) : List ℚ :=
  let sorted := segs.mergeSort fun a b => decide (a.startMs ≤ b.startMs)
  let cg : ℚ × List ℚ := sorted.foldl
    (fun st seg =>
      (max st.1 seg.endMs, if st.1 < seg.startMs then st.2 ++ [seg.startMs - st.1] else st.2))
    (0, [])
  if cg.1 < totalMs then cg.2 ++ [totalMs - cg.1] else cg.2

/-- Loop state of the energy-threshold fallback branch of `analyzePauses`. -/
structure PauseScanState where
  silentFrames : ℕ
  totalFrames : ℕ
  currentSilent : ℚ
  pauses : List ℚ

/-- The frame loop of the fallback branch: 50 ms frames, mean absolute
amplitude under 0.01 is silent; a silent run of at least 0.15 s is committed
as a pause when it ends. -/
noncomputable def pauseScan (buf : Buffer) (sr : ℕ) : PauseScanState :=
  let frame := sr / 20
  (List.range (strictLoopCount buf.length frame frame)).foldl
    (fun st i =>
      let energy := (((buf.drop (i * frame)).take frame).map fun s => |s|).sum / frame
      if energy < 1 / 100 then
        ⟨st.silentFrames + 1, st.totalFrames + 1, st.currentSilent + (frame : ℚ) / sr, st.pauses⟩
      else
        ⟨st.silentFrames, st.totalFrames + 1, 0,
          if 3 / 20 ≤ st.currentSilent then st.pauses ++ [st.currentSilent] else st.pauses⟩)
    ⟨0, 0, 0, []⟩

/-- The fallback branch figures: commit a trailing silent run, pause ratio =
silent frames over `max(1, total frames)`; pause durations in seconds. -/
noncomputable def pauseFiguresFallback (buf : Buffer) (sr : ℕ) : PauseFigures :=
  let s := pauseScan buf sr
  let pausesSec := if 3 / 20 ≤ s.currentSilent then s.pauses ++ [s.currentSilent] else s.pauses
  ⟨(s.silentFrames : ℚ) / max 1 (s.totalFrames : ℚ), pausesSec.length,
    if pausesSec = [] then 0 else pausesSec.foldl max 0,
    if pausesSec = [] then 0 else pausesSec.sum / pausesSec.length⟩

/-- The VAD branch figures: pause ratio = 1 − clamped speech ratio; gaps of
at least 150 ms are the significant pauses, reported in seconds. -/
def pauseFiguresVAD (v : VADMetrics) (totalMs : ℚ) : PauseFigures :=
  let significant := (vadGaps v.speechSegments totalMs).filter fun p => decide (150 ≤ p)
  ⟨1 - max 0 (min 1 v.speechRatio), significant.length,
    if significant = [] then 0 else (significant.foldl max 0) / 1000,
    if significant = [] then 0 else significant.sum / significant.length / 1000⟩

/-- `analyzePauses`: VAD-based figures when segments were supplied, else the
energy-threshold fallback; score 100 up to a 10% pause ratio, then a linear
penalty scaled by the `max` threshold. -/
noncomputable def analyzePauses (buf : Buffer) (sr : ℕ) (config : List MetricConfig)
    (vadMetrics : Option VADMetrics) : PauseManagementResult :=
  let t := ((getMetricConfig config "pauseManagement").map fun m => m.thresholds).getD
    ⟨0, 0, 271 / 100⟩
  let fig : PauseFigures :=
    match vadMetrics with
    | some v =>
        if v.speechSegments = [] then pauseFiguresFallback buf sr
        else pauseFiguresVAD v ((buf.length : ℚ) / sr * 1000)
    | none => pauseFiguresFallback buf sr
  let score : ℚ :=
    if 1 / 10 < fig.pauseRatio then max 0 (100 - (fig.pauseRatio - 1 / 10) / t.max * 100)
    else 100
  ⟨fig.pauseCount, round2Q fig.avgPause, round2Q fig.maxPause, round2Q fig.pauseRatio,
    round (max 0 (min 100 score)), "FLUIDITY"⟩

/-- The five normalized weights of `normalizedWeights`. -/
structure Weights where
  volume : ℚ
  speechRate : ℚ
  acceleration : ℚ
  responseTime : ℚ
  pauseManagement : ℚ
deriving DecidableEq

/-- `getMetricConfig(config, id)?.weight ?? 0`. -/
def rawWeight (config : List MetricConfig) (id : String) : ℚ :=
  ((getMetricConfig config id).map fun m => m.weight).getD 0

/-- `normalizedWeights`: each resolved weight over `max(1, their sum)`. -/
def normalizedWeights (config : List MetricConfig) : Weights :=
  let total := max 1 (rawWeight config "volume" + rawWeight config "speechRate" +
    rawWeight config "acceleration" + rawWeight config "responseTime" +
    rawWeight config "pauseManagement")
  ⟨rawWeight config "volume" / total, rawWeight config "speechRate" / total,
   rawWeight config "acceleration" / total, rawWeight config "responseTime" / total,
   rawWeight config "pauseManagement" / total⟩

/-- Sum of the five normalized weights (the quantity the aggregation
property speaks about). -/
def weightsSum (w : Weights) : ℚ :=
  w.volume + w.speechRate + w.acceleration + w.responseTime + w.pauseManagement

/-- The single feedback string of the no-speech short-circuit. -/
def noSpeechMessage : String := "No speech detected. Please try again and speak clearly."

/-- `buildFeedback`: rule-based strings for weak metrics, else one positive
message keyed on whether the overall score reaches 90. -/
def buildFeedback (volume : VolumeResult) (speechRate : SpeechRateResult)
    (acceleration : AccelerationResult) (responseTime : ResponseTimeResult)
    (pauses : PauseManagementResult) (overallScore : ℤ) : List String :=
  let f1 := if volume.score < 60 then
    ["Speak louder and keep your voice energy more stable."] else []
  let f2 := if speechRate.score < 60 then
    (if speechRate.wordsPerMinute < 100 then
      ["Try speaking a bit faster for more natural fluency."]
     else ["Slow down slightly to improve clarity."]) else []
  let f3 := if responseTime.score < 60 then ["Start speaking sooner after the prompt."] else []
  let f4 := if pauses.score < 60 then ["Reduce long pauses to keep smoother flow."] else []
  let f5 := if acceleration.score < 60 then ["Build momentum from start to finish."] else []
  let fb := f1 ++ f2 ++ f3 ++ f4 ++ f5
  if fb = [] then
    [if 90 ≤ overallScore then "Excellent work. Strong delivery and control."
     else "Great job. Keep this rhythm and consistency."]
  else fb

/-- The `emotionalFeedback` union. -/
inductive EmotionalFeedback where
  | excellent
  | good
  | poor
deriving DecidableEq

/-- The optional `normalization` diagnostics of an `AnalysisResult`. -/
structure NormalizationInfo where
  originalLUFS : Option ℝ
  calibratedLUFS : Option ℝ
  finalLUFS : Option ℝ
  deviceGain : ℝ
  normalizationGain : ℝ

/-- The `metrics` sub-record of an `AnalysisResult`. -/
structure MetricsScores where
  volume : ℤ
  speechRate : ℤ
  pauses : ℤ
  latency : ℤ
  endIntensity : ℤ

/-- `AnalysisResult`. -/
structure AnalysisResult where
  volume : VolumeResult
  speechRate : SpeechRateResult
  acceleration : AccelerationResult
  responseTime : ResponseTimeResult
  pauseManagement : PauseManagementResult
  pauses : PauseManagementResult
  overallScore : ℤ
  emotionalFeedback : EmotionalFeedback
  metrics : MetricsScores
  normalization : Option NormalizationInfo
  feedback : List String

/-- `analyzeAudioAsync`, for calls that carry no `audioBlob`. The resolved
configuration (`getConfigAsync`, an external fetch plus cache), the
`speechRateMethod` local-storage key, the calibration-profile store and the
clock are explicit parameters. If the supplied voice activity shows
effectively no speech, everything is bypassed with an all-zero result and
the single no-speech feedback message; otherwise the device calibration (if
any) produces the processed buffer, the volume analyzer scores the raw buffer
with the device dB offset, and the remaining analyzers and the speech-rate
estimator score the processed buffer; the weighted rounded sum is the overall
score. -/
noncomputable def analyzeAudioAsync (audioBuffer : Buffer) (sampleRate : ℕ)
    (deviceId : Option String) (vadMetrics : Option VADMetrics) (sttWordCount : Option ℕ)
    (config : List MetricConfig) (localMethod : Option SpeechRateMethod)
    (store : ProfileStore) (now : ℚ) : AnalysisResult :=
  let method := getSpeechRateMethod config localMethod
  let hasSpeech : Bool :=
    match vadMetrics with
    | some v => decide (2 / 100 < v.speechRatio) && decide (200 < v.totalSpeechTime)
    | none => true
  if hasSpeech = false then
    let zeroPauses : PauseManagementResult := ⟨0, 0, 0, 1, 0, "FLUIDITY"⟩
    ⟨⟨none, 0, "ENERGY"⟩,
     ⟨0, 0, 0, "FLUENCY", method, none⟩,
     ⟨0, some 0, some 0, 0, 0, false, "DYNAMICS"⟩,
     ⟨0, 0, "READINESS"⟩,
     zeroPauses, zeroPauses, 0, .poor, ⟨0, 0, 0, 0, 0⟩, none, [noSpeechMessage]⟩
  else
    let cal : Option (CalibrateResult × ProfileStore) :=
      match deviceId with
      | some _ =>
          some (calibrateAndNormalize store audioBuffer sampleRate deviceId
            ((TARGET_LUFS : ℚ) : ℝ) now)
      | none => none
    let processed : Buffer := match cal with | some c => c.1.normalized | none => audioBuffer
    let normalization : Option NormalizationInfo := cal.map fun c =>
      ⟨c.1.originalLUFS.map round1R, c.1.calibratedLUFS.map round1R,
       c.1.finalLUFS.map round1R, round2R c.1.deviceGain, round2R c.1.normalizationGain⟩
    let store1 : ProfileStore := match cal with | some c => c.2 | none => store
    let deviceOffset : ℚ :=
      match deviceId with
      | some d =>
          match (getCalibrationProfile store1 d now).1 with
          | some p => TARGET_LUFS - p.referenceLevel
          | none => 0
      | none => 0
    let volume := analyzeVolume audioBuffer config deviceOffset
    let durationTotal : ℚ := (processed.length : ℚ) / sampleRate
    let durationSeconds : ℚ :=
      match vadMetrics with
      | some v => max (1 / 10) (durationTotal - (durationTotal - v.totalSpeechTime / 1000) / 2)
      | none => max (1 / 10) durationTotal
    let speechRate := analyzeSpeechRate processed sampleRate config durationSeconds method
      sttWordCount
    let acceleration := analyzeAcceleration processed sampleRate config
    let responseTime := analyzeResponseTime processed sampleRate config
    let pauseManagement := analyzePauses processed sampleRate config vadMetrics
    let w := normalizedWeights config
    let overallScore : ℤ := round ((volume.score : ℚ) * w.volume +
      (speechRate.score : ℚ) * w.speechRate + (acceleration.score : ℚ) * w.acceleration +
      (responseTime.score : ℚ) * w.responseTime +
      (pauseManagement.score : ℚ) * w.pauseManagement)
    let emotionalFeedback : EmotionalFeedback :=
      if 70 ≤ overallScore then .excellent else if 40 ≤ overallScore then .good else .poor
    ⟨volume, speechRate, acceleration, responseTime, pauseManagement, pauseManagement,
     overallScore, emotionalFeedback,
     ⟨volume.score, speechRate.score, pauseManagement.score, responseTime.score,
      acceleration.score⟩,
     normalization,
     buildFeedback volume speechRate acceleration responseTime pauseManagement overallScore⟩

/-- Device profile fixture with gain 0.1 (reference level at target, so the
device dB offset is 0). -/
noncomputable def micProfile : CalibrationProfile := ⟨"mic", "Mic", 0, -23, 1 / 10, 0, 0, []⟩

/-- `micProfile` after the calibrated analysis tracked one recording (all
measured values on this input are `-Infinity`, stored as the 0 default, and
the noise floor is 0 dB). -/
noncomputable def micProfile2 : CalibrationProfile :=
  ⟨"mic", "Mic", 0, -23, 1 / 10, 0, 0, [⟨0, 0, 0, 0, 0⟩]⟩

end Analysis

namespace LufsNorm

theorem filter_beq_filter_bne_length (store : ProfileStore) (d s : String) :
    ((store.filter fun p => p.deviceId != d).filter fun p => p.deviceId == s).length =
      if s = d then 0 else (store.filter fun p => p.deviceId == s).length := by
  rw [← List.countP_eq_length_filter, ← List.countP_eq_length_filter, List.countP_filter]
  by_cases hs : s = d
  · rw [if_pos hs]
    subst hs
    refine List.countP_eq_zero.2 fun a _ => ?_
    simp
  · rw [if_neg hs]
    refine List.countP_congr fun a _ => ?_
    simp only [Bool.and_eq_true, beq_iff_eq, bne_iff_ne, ne_eq]
    constructor
    · intro h
      exact h.1
    · intro h
      exact ⟨h, fun hd2 => hs (by rw [← h, hd2])⟩

/-- C10: `deleteCalibrationProfile` removes exactly the profiles carrying the
given device id: the result is a sublist of the store (every other profile is
kept unchanged and in order), no kept profile carries the deleted id, and for
every device id the count of its profiles is unchanged unless it is the
deleted id, whose count drops to 0. -/
theorem deleteCalibrationProfile_removes_exactly (store : ProfileStore) (d : String) :
    (deleteCalibrationProfile store d).Sublist store ∧
    (∀ p ∈ deleteCalibrationProfile store d, p.deviceId ≠ d) ∧
    (∀ s : String,
      ((deleteCalibrationProfile store d).filter fun p => p.deviceId == s).length =
        if s = d then 0 else (store.filter fun p => p.deviceId == s).length) := by
  refine ⟨List.filter_sublist _, ?_, ?_⟩
  · intro p hp
    have := List.of_mem_filter hp
    simpa using this
  · intro s
    exact filter_beq_filter_bne_length store d s

theorem trackHistory_concat_drop (l : List RecordingStats) (s : RecordingStats) :
    trackHistory (l.drop (l.length - MAX_RECORDING_HISTORY)) s =
      (l ++ [s]).drop (l.length + 1 - MAX_RECORDING_HISTORY) := by
  unfold trackHistory MAX_RECORDING_HISTORY
  by_cases hlen : l.length ≤ 9
  · have h0 : l.length - 10 = 0 := by omega
    have h1 : l.length + 1 - 10 = 0 := by omega
    rw [h0, h1, List.drop_zero, List.drop_zero, if_neg (by simp; omega)]
  · have hdl : (l.drop (l.length - 10)).length = 10 := by rw [List.length_drop]; omega
    have hcond : 10 < (l.drop (l.length - 10) ++ [s]).length := by
      rw [List.length_append, hdl]; simp
    rw [if_pos hcond, List.length_append, hdl]
    have h2 : 10 + [s].length - 10 = 1 := by simp
    rw [h2,
      List.drop_append_of_le_length (by omega : 1 ≤ (l.drop (l.length - 10)).length),
      List.drop_drop,
      List.drop_append_of_le_length (by omega : l.length + 1 - 10 ≤ l.length)]
    have h3 : l.length - 10 + 1 = l.length + 1 - 10 := by omega
    rw [h3]

/-- C7: the recording history is a ring of at most `MAX_RECORDING_HISTORY`
entries: a single `trackHistory` step never leaves more than 10 entries, and
tracking any sequence of recordings from an empty history keeps exactly the
most recent 10 of them, in order (the oldest entries are the evicted ones). -/
theorem recordingHistory_ring_invariant :
    (∀ (h : List RecordingStats) (s : RecordingStats),
        (trackHistory h s).length ≤ MAX_RECORDING_HISTORY) ∧
    (∀ recs : List RecordingStats,
        List.foldl trackHistory [] recs = recs.drop (recs.length - MAX_RECORDING_HISTORY)) := by
  constructor
  · intro h s
    unfold trackHistory
    by_cases hc : MAX_RECORDING_HISTORY < (h ++ [s]).length
    · rw [if_pos hc, List.length_drop]
      omega
    · rw [if_neg hc]
      omega
  · intro recs
    induction recs using List.reverseRecOn with
    | nil => simp
    | append_singleton l s ih =>
        rw [List.foldl_append, List.foldl_cons, List.foldl_nil, ih,
          trackHistory_concat_drop, List.length_append, List.length_singleton]

end LufsNorm

namespace Analysis

/-- C4 counterexample: a resolved local-override configuration may carry
fractional weights; here its only present metric has the positive weight 1/2,
and the five normalized weights sum to 1/2, not 1 (no rounding epsilon saves
the gap). -/
theorem normalizedWeights_sum_counterexample :
    getConfigFromLocalStorage [⟨some "volume", some (1 / 2), true, none, none⟩] =
      some [⟨"volume", 1 / 2, ⟨-35, -15, 0⟩, none⟩] ∧
    (∀ m ∈ [(⟨"volume", 1 / 2, ⟨-35, -15, 0⟩, none⟩ : MetricConfig)], 0 < m.weight) ∧
    weightsSum (normalizedWeights [⟨"volume", 1 / 2, ⟨-35, -15, 0⟩, none⟩]) = 1 / 2 ∧
    (1 / 2 : ℚ) ≠ 1 := by
  have hw : (0 : ℚ) < 1 / 2 := by norm_num
  refine ⟨?_, ?_, ?_, by norm_num⟩
  · simp [getConfigFromLocalStorage, DEFAULT_CONFIG, List.find?, List.filter, hw]
  · intro m hm
    simp only [List.mem_singleton] at hm
    subst hm
    exact hw
  · simp [weightsSum, normalizedWeights, rawWeight, getMetricConfig, List.find?]
    rw [max_eq_left (by norm_num : (2⁻¹ : ℚ) ≤ 1)]
    norm_num

/-- C4 (amended): whenever the resolved weights of the five metrics sum to at
least 1 — in particular for the compiled defaults and for any remote
configuration, whose present weights are integers on the 0–100 scale — the
five normalized weights sum to exactly 1. -/
theorem normalizedWeights_sum_one (config : List MetricConfig)
    (h : 1 ≤ rawWeight config "volume" + rawWeight config "speechRate" +
      rawWeight config "acceleration" + rawWeight config "responseTime" +
      rawWeight config "pauseManagement") :
    weightsSum (normalizedWeights config) = 1 := by
  unfold weightsSum normalizedWeights
  simp only [max_eq_right h]
  rw [div_add_div_same, div_add_div_same, div_add_div_same, div_add_div_same]
  exact div_self (by linarith)

theorem normalizedWeights_sum_one_witness :
    (1 ≤ rawWeight DEFAULT_CONFIG "volume" + rawWeight DEFAULT_CONFIG "speechRate" +
      rawWeight DEFAULT_CONFIG "acceleration" + rawWeight DEFAULT_CONFIG "responseTime" +
      rawWeight DEFAULT_CONFIG "pauseManagement") ∧
    weightsSum (normalizedWeights DEFAULT_CONFIG) = 1 := by
  have h : 1 ≤ rawWeight DEFAULT_CONFIG "volume" + rawWeight DEFAULT_CONFIG "speechRate" +
      rawWeight DEFAULT_CONFIG "acceleration" + rawWeight DEFAULT_CONFIG "responseTime" +
      rawWeight DEFAULT_CONFIG "pauseManagement" := by
    simp [rawWeight, getMetricConfig, DEFAULT_CONFIG, List.find?]
    norm_num
  exact ⟨h, normalizedWeights_sum_one DEFAULT_CONFIG h⟩

end Analysis

namespace Analysis

/-- C5 counterexample: a remote `volume` row carrying `max_value = 5`
resolves with `thresholds.max = 0` (the compiled default) — not 5 as the
property states — because the remote `max_value` is substituted into
`thresholds.ideal` instead. -/
theorem fetchConfigFromDB_counterexample :
    ((getMetricConfig (fetchConfigFromDB [⟨"volume", 2 / 5, some (-30), some 5⟩]) "volume").map
        fun m => m.thresholds.max) = some 0 ∧
    ((getMetricConfig (fetchConfigFromDB [⟨"volume", 2 / 5, some (-30), some 5⟩]) "volume").map
        fun m => m.thresholds.ideal) = some 5 ∧
    some (0 : ℚ) ≠ some (5 : ℚ) := by
  refine ⟨?_, ?_, by norm_num⟩ <;>
    simp [fetchConfigFromDB, applyRow, DB_METRIC_MAP, getMetricConfig, DEFAULT_CONFIG,
      List.find?]

end Analysis

namespace Analysis

/-- C5 (amended): a remote row mapped onto internal metric `id` resolves that
metric to weight `round(100 × weight)`, `thresholds.min = min_value` and
`thresholds.ideal = max_value` (each defaulted from the compiled entry when
the remote value is missing), while `thresholds.max` keeps the compiled
default — except for `pauseManagement`, whose `max` also takes `max_value`. -/
theorem fetchConfigFromDB_row_mapping (row : ScoringRow) (id : String)
    (d0 m : MetricConfig)
    (h1 : DB_METRIC_MAP row.metric_name = some id)
    (h2 : getMetricConfig DEFAULT_CONFIG id = some d0)
    (h3 : getMetricConfig (fetchConfigFromDB [row]) id = some m) :
    m.weight = ((round (row.weight * 100) : ℤ) : ℚ) ∧
    m.thresholds.min = row.min_value.getD d0.thresholds.min ∧
    m.thresholds.ideal = row.max_value.getD d0.thresholds.ideal ∧
    m.thresholds.max =
      (if id = "pauseManagement" then row.max_value.getD d0.thresholds.max
       else d0.thresholds.max) := by
  obtain ⟨name, w, mn, mx⟩ := row
  unfold DB_METRIC_MAP at h1
  dsimp only at h1
  split_ifs at h1 with hv hs he hl hp
  · rw [beq_iff_eq] at hv
    subst hv
    injection h1 with h1
    subst h1
    have hd : d0 = ⟨"volume", 40, ⟨-35, -15, 0⟩, none⟩ := by
      simpa [getMetricConfig, DEFAULT_CONFIG, List.find?] using h2.symm
    have hm : m = ⟨"volume", ((round (w * 100) : ℤ) : ℚ),
        ⟨mn.getD (-35), mx.getD (-15), 0⟩, none⟩ := by
      simpa [fetchConfigFromDB, applyRow, DB_METRIC_MAP, getMetricConfig, DEFAULT_CONFIG,
        List.find?] using h3.symm
    subst hd
    subst hm
    simp
  · rw [beq_iff_eq] at hs
    subst hs
    injection h1 with h1
    subst h1
    have hd : d0 = ⟨"speechRate", 40, ⟨90, 150, 220⟩, some .spectralFlux⟩ := by
      simpa [getMetricConfig, DEFAULT_CONFIG, List.find?] using h2.symm
    have hm : m = ⟨"speechRate", ((round (w * 100) : ℤ) : ℚ),
        ⟨mn.getD (90), mx.getD (150), 220⟩, some .spectralFlux⟩ := by
      simpa [fetchConfigFromDB, applyRow, DB_METRIC_MAP, getMetricConfig, DEFAULT_CONFIG,
        List.find?] using h3.symm
    subst hd
    subst hm
    simp
  · rw [beq_iff_eq] at he
    subst he
    injection h1 with h1
    subst h1
    have hd : d0 = ⟨"acceleration", 5, ⟨0, 50, 100⟩, none⟩ := by
      simpa [getMetricConfig, DEFAULT_CONFIG, List.find?] using h2.symm
    have hm : m = ⟨"acceleration", ((round (w * 100) : ℤ) : ℚ),
        ⟨mn.getD (0), mx.getD (50), 100⟩, none⟩ := by
      simpa [fetchConfigFromDB, applyRow, DB_METRIC_MAP, getMetricConfig, DEFAULT_CONFIG,
        List.find?] using h3.symm
    subst hd
    subst hm
    simp
  · rw [beq_iff_eq] at hl
    subst hl
    injection h1 with h1
    subst h1
    have hd : d0 = ⟨"responseTime", 5, ⟨2000, 200, 0⟩, none⟩ := by
      simpa [getMetricConfig, DEFAULT_CONFIG, List.find?] using h2.symm
    have hm : m = ⟨"responseTime", ((round (w * 100) : ℤ) : ℚ),
        ⟨mn.getD (2000), mx.getD (200), 0⟩, none⟩ := by
      simpa [fetchConfigFromDB, applyRow, DB_METRIC_MAP, getMetricConfig, DEFAULT_CONFIG,
        List.find?] using h3.symm
    subst hd
    subst hm
    simp
  · rw [beq_iff_eq] at hp
    subst hp
    injection h1 with h1
    subst h1
    have hd : d0 = ⟨"pauseManagement", 10, ⟨0, 0, 271 / 100⟩, none⟩ := by
      simpa [getMetricConfig, DEFAULT_CONFIG, List.find?] using h2.symm
    have hm : m = ⟨"pauseManagement", ((round (w * 100) : ℤ) : ℚ),
        ⟨mn.getD (0), mx.getD (0), mx.getD (271 / 100)⟩, none⟩ := by
      simpa [fetchConfigFromDB, applyRow, DB_METRIC_MAP, getMetricConfig, DEFAULT_CONFIG,
        List.find?] using h3.symm
    subst hd
    subst hm
    simp

end Analysis

namespace Analysis

theorem fetchConfigFromDB_row_mapping_witness :
    (⟨"responseTime", 25, ⟨2000, 7, 0⟩, none⟩ : MetricConfig).weight =
      ((round ((1 / 4 : ℚ) * 100) : ℤ) : ℚ) ∧
    (⟨"responseTime", 25, ⟨2000, 7, 0⟩, none⟩ : MetricConfig).thresholds.min =
      (none : Option ℚ).getD
        (⟨"responseTime", 5, ⟨2000, 200, 0⟩, none⟩ : MetricConfig).thresholds.min ∧
    (⟨"responseTime", 25, ⟨2000, 7, 0⟩, none⟩ : MetricConfig).thresholds.ideal =
      (some (7 : ℚ)).getD
        (⟨"responseTime", 5, ⟨2000, 200, 0⟩, none⟩ : MetricConfig).thresholds.ideal ∧
    (⟨"responseTime", 25, ⟨2000, 7, 0⟩, none⟩ : MetricConfig).thresholds.max =
      (if ("responseTime" : String) = "pauseManagement" then
        (some (7 : ℚ)).getD
          (⟨"responseTime", 5, ⟨2000, 200, 0⟩, none⟩ : MetricConfig).thresholds.max
       else (⟨"responseTime", 5, ⟨2000, 200, 0⟩, none⟩ : MetricConfig).thresholds.max) := by
  have hr : ((round ((4⁻¹ : ℚ) * 100) : ℤ) : ℚ) = 25 := by norm_num [round_eq]
  have hr2 : ((round ((1 / 4 : ℚ) * 100) : ℤ) : ℚ) = 25 := by norm_num [round_eq]
  exact fetchConfigFromDB_row_mapping ⟨"latency", 1 / 4, none, some 7⟩ "responseTime"
    ⟨"responseTime", 5, ⟨2000, 200, 0⟩, none⟩ ⟨"responseTime", 25, ⟨2000, 7, 0⟩, none⟩
    (by simp [DB_METRIC_MAP])
    (by simp [getMetricConfig, DEFAULT_CONFIG, List.find?])
    (by simp [fetchConfigFromDB, applyRow, DB_METRIC_MAP, getMetricConfig, DEFAULT_CONFIG,
      List.find?, hr, hr2])

end Analysis

namespace Analysis

open LufsNorm

/-- C3: when the supplied voice-activity metrics satisfy
`speechRatio ≤ 0.02` and `totalSpeechTime < 200` ms, `analyzeAudioAsync`
bypasses the whole pipeline: the overall score and every per-metric score
are 0, and the feedback is exactly the single no-speech message. -/
theorem analyzeAudioAsync_no_speech (audioBuffer : Buffer) (sampleRate : ℕ)
    (deviceId : Option String) (v : VADMetrics) (sttWordCount : Option ℕ)
    (config : List MetricConfig) (localMethod : Option SpeechRateMethod)
    (store : ProfileStore) (now : ℚ)
    (h1 : v.speechRatio ≤ 2 / 100) (h2 : v.totalSpeechTime < 200) :
    (analyzeAudioAsync audioBuffer sampleRate deviceId (some v) sttWordCount config
        localMethod store now).overallScore = 0 ∧
    (analyzeAudioAsync audioBuffer sampleRate deviceId (some v) sttWordCount config
        localMethod store now).volume.score = 0 ∧
    (analyzeAudioAsync audioBuffer sampleRate deviceId (some v) sttWordCount config
        localMethod store now).speechRate.score = 0 ∧
    (analyzeAudioAsync audioBuffer sampleRate deviceId (some v) sttWordCount config
        localMethod store now).acceleration.score = 0 ∧
    (analyzeAudioAsync audioBuffer sampleRate deviceId (some v) sttWordCount config
        localMethod store now).responseTime.score = 0 ∧
    (analyzeAudioAsync audioBuffer sampleRate deviceId (some v) sttWordCount config
        localMethod store now).pauseManagement.score = 0 ∧
    (analyzeAudioAsync audioBuffer sampleRate deviceId (some v) sttWordCount config
        localMethod store now).pauses.score = 0 ∧
    (analyzeAudioAsync audioBuffer sampleRate deviceId (some v) sttWordCount config
        localMethod store now).metrics = ⟨0, 0, 0, 0, 0⟩ ∧
    (analyzeAudioAsync audioBuffer sampleRate deviceId (some v) sttWordCount config
        localMethod store now).feedback = [noSpeechMessage] := by
  have hs : ¬ (2 / 100 < v.speechRatio) := not_lt.2 h1
  simp [analyzeAudioAsync, hs]

end Analysis

namespace Analysis

theorem analyzeAudioAsync_no_speech_witness :
    ((⟨[], 0, 0, 0, false, 0⟩ : VADMetrics).speechRatio ≤ 2 / 100) ∧
    ((⟨[], 0, 0, 0, false, 0⟩ : VADMetrics).totalSpeechTime < 200) ∧
    (analyzeAudioAsync [] 16000 none (some ⟨[], 0, 0, 0, false, 0⟩) none DEFAULT_CONFIG
      none [] 0).overallScore = 0 ∧
    (analyzeAudioAsync [] 16000 none (some ⟨[], 0, 0, 0, false, 0⟩) none DEFAULT_CONFIG
      none [] 0).feedback = [noSpeechMessage] := by
  have h := analyzeAudioAsync_no_speech [] 16000 none ⟨[], 0, 0, 0, false, 0⟩ none
    DEFAULT_CONFIG none [] 0 (by norm_num) (by norm_num)
  exact ⟨by norm_num, by norm_num, h.1, h.2.2.2.2.2.2.2.2⟩

end Analysis

namespace LufsNorm

theorem blocksOf_eq_nil (buf : Buffer) (sr : ℕ) (h : buf.length ≤ blockSize sr) :
    blocksOf buf sr = [] := by
  unfold blocksOf
  have hc : strictLoopCount buf.length (blockSize sr) (hop (blockSize sr)) = 0 := by
    unfold strictLoopCount
    have h0 : buf.length - blockSize sr = 0 := Nat.sub_eq_zero_of_le h
    have h1 : 1 ≤ hop (blockSize sr) := le_max_left 1 _
    rw [h0]
    exact Nat.div_eq_of_lt (by omega)
  rw [hc]
  rfl

theorem calculateLUFS_eq_none_of_short (buf : Buffer) (sr : ℕ)
    (h1 : buf ≠ []) (h2 : buf.length ≤ blockSize sr) :
    calculateLUFS buf sr = none := by
  have hms : calculateMeanSquareWithGating buf sr = 0 := by
    unfold calculateMeanSquareWithGating
    rw [if_pos (blocksOf_eq_nil buf sr h2)]
  unfold calculateLUFS
  rw [if_neg h1, if_pos hms]

/-- C9: a non-empty buffer of at most `⌊0.4·sampleRate⌋` samples (shorter
than one 400 ms block) yields no measurement blocks, so `calculateLUFS`
returns `-Infinity` (`none`) however loud the samples are, and
`normalizeToLUFS` returns the buffer unchanged with linear gain 1, for every
target. -/
theorem short_buffer_passthrough (buf : Buffer) (sr : ℕ) (t : ℝ)
    (h1 : buf ≠ []) (h2 : buf.length ≤ blockSize sr) :
    calculateLUFS buf sr = none ∧
    (normalizeToLUFS buf sr t).normalized = buf ∧
    (normalizeToLUFS buf sr t).gainLinear = 1 := by
  have hl := calculateLUFS_eq_none_of_short buf sr h1 h2
  refine ⟨hl, ?_, ?_⟩ <;> simp [normalizeToLUFS, hl]

theorem short_buffer_passthrough_witness :
    (([5, 5] : Buffer) ≠ []) ∧ ([5, 5] : Buffer).length ≤ blockSize 30 ∧
    calculateLUFS [5, 5] 30 = none ∧
    (normalizeToLUFS [5, 5] 30 (-23)).normalized = [5, 5] ∧
    (normalizeToLUFS [5, 5] 30 (-23)).gainLinear = 1 := by
  have h1 : ([5, 5] : Buffer) ≠ [] := by simp
  have h2 : ([5, 5] : Buffer).length ≤ blockSize 30 := by
    show 2 ≤ blockSize 30
    norm_num [blockSize]
  have h := short_buffer_passthrough [5, 5] 30 (-23) h1 h2
  exact ⟨h1, h2, h.1, h.2.1, h.2.2⟩

end LufsNorm

namespace LufsNorm

/-- C2 counterexample: all samples of the buffer `[2]` are finite, yet the
buffer is too short to measure, `calculateLUFS` is `-Infinity`, and
`normalizeToLUFS` passes the buffer through unchanged — so the output sample
2 lies outside [-1, 1]. -/
theorem normalizeToLUFS_output_not_in_range :
    ¬ (∀ x ∈ (normalizeToLUFS [2] 10 (-23)).normalized, -1 ≤ x ∧ x ≤ 1) := by
  intro hall
  have hl : calculateLUFS [2] 10 = none :=
    calculateLUFS_eq_none_of_short [2] 10 (by simp) (by
      show 1 ≤ blockSize 10
      norm_num [blockSize])
  have hn : (normalizeToLUFS [2] 10 (-23)).normalized = [2] := by
    simp [normalizeToLUFS, hl]
  have h2 := hall 2 (by rw [hn]; exact List.mem_singleton_self 2)
  linarith [h2.2]

/-- C2 (amended): whenever every input sample lies within [-1, 1] (the
documented entry contract for sample buffers), every sample of the buffer
returned by `normalizeToLUFS` lies within [-1, 1], for every sample rate and
target loudness: the passthrough branch keeps the input samples and the
scaling branch hard-clips. -/
theorem normalizeToLUFS_output_in_range (buf : Buffer) (sr : ℕ) (t : ℝ)
    (h : ∀ s ∈ buf, -1 ≤ s ∧ s ≤ 1) :
    ∀ x ∈ (normalizeToLUFS buf sr t).normalized, -1 ≤ x ∧ x ≤ 1 := by
  unfold normalizeToLUFS
  cases hc : calculateLUFS buf sr with
  | none => simpa using h
  | some current =>
      intro x hx
      simp only [List.mem_map] at hx
      obtain ⟨s, _, rfl⟩ := hx
      exact ⟨le_max_left _ _, max_le (by norm_num) (min_le_left _ _)⟩

theorem normalizeToLUFS_output_in_range_witness :
    (∀ s ∈ ([1 / 2, -1] : Buffer), -1 ≤ s ∧ s ≤ 1) ∧
    ∀ x ∈ (normalizeToLUFS [1 / 2, -1] 48000 (-23)).normalized, -1 ≤ x ∧ x ≤ 1 := by
  have h : ∀ s ∈ ([1 / 2, -1] : Buffer), -1 ≤ s ∧ s ≤ 1 := by
    intro s hs
    simp only [List.mem_cons, List.mem_singleton, List.not_mem_nil, or_false] at hs
    rcases hs with rfl | rfl <;> norm_num
  exact ⟨h, normalizeToLUFS_output_in_range [1 / 2, -1] 48000 (-23) h⟩

end LufsNorm

namespace LufsNorm

theorem sum_lt_of_forall_lt (l : List ℝ) (c : ℝ) (hne : l ≠ []) (h : ∀ x ∈ l, x < c) :
    l.sum < l.length * c := by
  induction l with
  | nil => simp at hne
  | cons a t ih =>
      cases t with
      | nil => simpa using h a (by simp)
      | cons b u =>
          have ht := ih (by simp) fun x hx => h x (List.mem_cons_of_mem a hx)
          have ha := h a (by simp)
          simp only [List.sum_cons, List.length_cons] at ht ⊢
          push_cast at ht ⊢
          nlinarith [ht, ha]

theorem exists_avg_le (l : List ℝ) (hne : l ≠ []) : ∃ x ∈ l, l.sum / l.length ≤ x := by
  by_contra hcon
  push_neg at hcon
  have hlen : 0 < (l.length : ℝ) := by
    have : 0 < l.length := List.length_pos.2 hne
    exact_mod_cast this
  have h := sum_lt_of_forall_lt l (l.sum / l.length) hne hcon
  have heq : (l.length : ℝ) * (l.sum / l.length) = l.sum := by field_simp
  linarith

theorem surviving_nonempty_of_gated (buf : Buffer) (sr : ℕ)
    (hg : gatedBlocks buf sr ≠ []) : survivingBlocks buf sr ≠ [] := by
  obtain ⟨x, hx, hle⟩ := exists_avg_le (gatedBlocks buf sr) hg
  have hnonneg : 0 ≤ (gatedBlocks buf sr).sum := by
    apply List.sum_nonneg
    intro y hy
    have hy2 := List.of_mem_filter hy
    simp only [decide_eq_true_eq] at hy2
    have hag : (0 : ℝ) ≤ absoluteGate := by norm_num [absoluteGate]
    linarith
  have havg : 0 ≤ gatedAvg buf sr := div_nonneg hnonneg (Nat.cast_nonneg _)
  have hrel : relativeGate buf sr ≤ x := by
    unfold relativeGate
    unfold gatedAvg at havg ⊢
    linarith
  intro hemp
  have hmem : x ∈ survivingBlocks buf sr := by
    unfold survivingBlocks
    exact List.mem_filter.2 ⟨hx, by simpa using hrel⟩
  rw [hemp] at hmem
  simp at hmem

/-- C1 (amended): when the two-stage gating leaves no surviving blocks,
`calculateMeanSquareWithGating` returns 0 — and `calculateLUFS` of a
non-empty buffer therefore returns `-Infinity` (`none`), not 0: the caller
maps the zero mean square back to silence. -/
theorem gating_no_survivors_neg_infinity (buf : Buffer) (sr : ℕ)
    (h1 : buf ≠ []) (h2 : survivingBlocks buf sr = []) :
    calculateMeanSquareWithGating buf sr = 0 ∧ calculateLUFS buf sr = none := by
  have hg : gatedBlocks buf sr = [] := by
    by_contra hg
    exact surviving_nonempty_of_gated buf sr hg h2
  have hms : calculateMeanSquareWithGating buf sr = 0 := by
    unfold calculateMeanSquareWithGating
    by_cases hb : blocksOf buf sr = []
    · rw [if_pos hb]
    · rw [if_neg hb, if_pos hg]
  refine ⟨hms, ?_⟩
  unfold calculateLUFS
  rw [if_neg h1, if_pos hms]

theorem quietBuffer_blocks :
    blocksOf [1 / 10000, 1 / 10000, 1 / 10000, 1 / 10000, 1 / 10000] 10 = [blockMeanSquare [1 / 10000, 1 / 10000, 1 / 10000, 1 / 10000, 1 / 10000] 0 4] := by
  unfold blocksOf
  have h1 : strictLoopCount ([1 / 10000, 1 / 10000, 1 / 10000, 1 / 10000, 1 / 10000] :
      Buffer).length (blockSize 10) (hop (blockSize 10)) = 1 := by rfl
  rw [h1]
  have h2 : blockSize 10 = 4 := by rfl
  rw [h2]
  have h3 : hop 4 = 1 := by rfl
  rw [h3]
  rfl

theorem quietBuffer_meanSquare :
    blockMeanSquare [1 / 10000, 1 / 10000, 1 / 10000, 1 / 10000, 1 / 10000] 0 4 = 1 / 100000000 := by
  unfold blockMeanSquare
  have h : ((([1 / 10000, 1 / 10000, 1 / 10000, 1 / 10000, 1 / 10000] : Buffer).drop 0).take 4) =
      [1 / 10000, 1 / 10000, 1 / 10000, 1 / 10000] := rfl
  rw [h]
  norm_num

theorem quietBuffer_gated : gatedBlocks [1 / 10000, 1 / 10000, 1 / 10000, 1 / 10000, 1 / 10000] 10 = [] := by
  unfold gatedBlocks
  rw [quietBuffer_blocks, quietBuffer_meanSquare]
  simp only [List.filter_cons, List.filter_nil, decide_eq_true_eq]
  rw [if_neg]
  norm_num [absoluteGate]

theorem quietBuffer_surviving : survivingBlocks [1 / 10000, 1 / 10000, 1 / 10000, 1 / 10000, 1 / 10000] 10 = [] := by
  unfold survivingBlocks
  rw [quietBuffer_gated]
  rfl

/-- C1 counterexample: for this non-empty quiet buffer at sample rate 10 the
absolute gate discards its only block, so the two-stage gating leaves no
surviving blocks — and `calculateLUFS` returns `-Infinity` (`none`), not 0. -/
theorem calculateLUFS_gated_out_counterexample :
    survivingBlocks [1 / 10000, 1 / 10000, 1 / 10000, 1 / 10000, 1 / 10000] 10 = [] ∧
    ([1 / 10000, 1 / 10000, 1 / 10000, 1 / 10000, 1 / 10000] : Buffer) ≠ [] ∧
    calculateLUFS [1 / 10000, 1 / 10000, 1 / 10000, 1 / 10000, 1 / 10000] 10 = none ∧
    calculateLUFS [1 / 10000, 1 / 10000, 1 / 10000, 1 / 10000, 1 / 10000] 10 ≠ some 0 := by
  have hne : ([1 / 10000, 1 / 10000, 1 / 10000, 1 / 10000, 1 / 10000] : Buffer) ≠ [] := by simp
  have hms : calculateMeanSquareWithGating [1 / 10000, 1 / 10000, 1 / 10000, 1 / 10000, 1 / 10000] 10 = 0 := by
    unfold calculateMeanSquareWithGating
    rw [if_neg (by rw [quietBuffer_blocks]; simp), if_pos quietBuffer_gated]
  have hl : calculateLUFS [1 / 10000, 1 / 10000, 1 / 10000, 1 / 10000, 1 / 10000] 10 = none := by
    unfold calculateLUFS
    rw [if_neg hne, if_pos hms]
  exact ⟨quietBuffer_surviving, hne, hl, by rw [hl]; simp⟩

theorem gating_no_survivors_neg_infinity_witness :
    (([1 / 10000, 1 / 10000, 1 / 10000, 1 / 10000, 1 / 10000] : Buffer) ≠ []) ∧
    survivingBlocks [1 / 10000, 1 / 10000, 1 / 10000, 1 / 10000, 1 / 10000] 10 = [] ∧
    calculateMeanSquareWithGating [1 / 10000, 1 / 10000, 1 / 10000, 1 / 10000, 1 / 10000] 10 = 0 ∧
    calculateLUFS [1 / 10000, 1 / 10000, 1 / 10000, 1 / 10000, 1 / 10000] 10 = none := by
  have h := gating_no_survivors_neg_infinity [1 / 10000, 1 / 10000, 1 / 10000, 1 / 10000, 1 / 10000] 10
    (by simp) quietBuffer_surviving
  exact ⟨by simp, quietBuffer_surviving, h.1, h.2⟩

end LufsNorm

namespace LufsNorm

/-- C6: with the noise-variance and age triggers below their thresholds, a
profile with at least 3 history entries does not trigger recalibration when
the population standard deviation of its `originalLUFS` history is exactly 5,
and does trigger it — with the high-variance reason — when that deviation
exceeds 5; with fewer than 3 entries it never triggers. -/
theorem checkRecalibration_variance_boundary (p : CalibrationProfile) (now : ℚ) :
    (p.recordingHistory.length < 3 →
      (checkRecalibrationProfile p now).shouldRecalibrate = false) ∧
    (3 ≤ p.recordingHistory.length →
      calcStd (p.recordingHistory.map fun h => h.originalLUFS) = 5 →
      calcStd (p.recordingHistory.map fun h => h.noiseFloor) ≤ 10 →
      (now - p.createdAt) / (1000 * 60 * 60 * 24) ≤ 30 →
      (checkRecalibrationProfile p now).shouldRecalibrate = false) ∧
    (3 ≤ p.recordingHistory.length →
      5 < calcStd (p.recordingHistory.map fun h => h.originalLUFS) →
      calcStd (p.recordingHistory.map fun h => h.noiseFloor) ≤ 10 →
      (now - p.createdAt) / (1000 * 60 * 60 * 24) ≤ 30 →
      (checkRecalibrationProfile p now).shouldRecalibrate = true ∧
      (checkRecalibrationProfile p now).reason =
        some (.highVariance (calcStd (p.recordingHistory.map fun h => h.originalLUFS)))) := by
  have hvt : ((VARIANCE_THRESHOLD : ℚ) : ℝ) = 5 := by norm_num [VARIANCE_THRESHOLD]
  refine ⟨?_, ?_, ?_⟩
  · intro hlen
    simp only [checkRecalibrationProfile]
    rw [if_pos hlen]
  · intro hlen hstd hnoise hdays
    simp only [checkRecalibrationProfile]
    rw [if_neg (by omega), if_neg (by rw [hstd, hvt]; norm_num),
      if_neg (not_lt.2 hnoise), if_neg (not_lt.2 hdays)]
  · intro hlen hstd hnoise hdays
    simp only [checkRecalibrationProfile]
    rw [if_neg (by omega), if_pos (by rw [hvt]; exact hstd)]
    exact ⟨rfl, rfl⟩

end LufsNorm

namespace LufsNorm

theorem checkRecalibration_variance_boundary_witness :
    ((⟨"mic", "Mic", 0, -23, 1, 0, 0, [⟨0, 0, 0, 0, 0⟩, ⟨0, 0, 0, 0, 0⟩]⟩ : CalibrationProfile).recordingHistory.length < 3) ∧
    (checkRecalibrationProfile (⟨"mic", "Mic", 0, -23, 1, 0, 0, [⟨0, 0, 0, 0, 0⟩, ⟨0, 0, 0, 0, 0⟩]⟩ : CalibrationProfile) 0).shouldRecalibrate = false ∧
    calcStd ((⟨"mic", "Mic", 0, -23, 1, 0, 0, [⟨0, 0, 0, 0, 0⟩, ⟨0, 0, 0, 0, 0⟩, ⟨0, 10, 0, 0, 0⟩, ⟨0, 10, 0, 0, 0⟩]⟩ : CalibrationProfile).recordingHistory.map fun h => h.originalLUFS) = 5 ∧
    (checkRecalibrationProfile (⟨"mic", "Mic", 0, -23, 1, 0, 0, [⟨0, 0, 0, 0, 0⟩, ⟨0, 0, 0, 0, 0⟩, ⟨0, 10, 0, 0, 0⟩, ⟨0, 10, 0, 0, 0⟩]⟩ : CalibrationProfile) 0).shouldRecalibrate = false ∧
    5 < calcStd ((⟨"mic", "Mic", 0, -23, 1, 0, 0, [⟨0, 0, 0, 0, 0⟩, ⟨0, 0, 0, 0, 0⟩, ⟨0, 501 / 50, 0, 0, 0⟩, ⟨0, 501 / 50, 0, 0, 0⟩]⟩ : CalibrationProfile).recordingHistory.map fun h => h.originalLUFS) ∧
    (checkRecalibrationProfile (⟨"mic", "Mic", 0, -23, 1, 0, 0, [⟨0, 0, 0, 0, 0⟩, ⟨0, 0, 0, 0, 0⟩, ⟨0, 501 / 50, 0, 0, 0⟩, ⟨0, 501 / 50, 0, 0, 0⟩]⟩ : CalibrationProfile) 0).shouldRecalibrate = true ∧
    (checkRecalibrationProfile (⟨"mic", "Mic", 0, -23, 1, 0, 0, [⟨0, 0, 0, 0, 0⟩, ⟨0, 0, 0, 0, 0⟩, ⟨0, 501 / 50, 0, 0, 0⟩, ⟨0, 501 / 50, 0, 0, 0⟩]⟩ : CalibrationProfile) 0).reason =
      some (.highVariance
        (calcStd ((⟨"mic", "Mic", 0, -23, 1, 0, 0, [⟨0, 0, 0, 0, 0⟩, ⟨0, 0, 0, 0, 0⟩, ⟨0, 501 / 50, 0, 0, 0⟩, ⟨0, 501 / 50, 0, 0, 0⟩]⟩ : CalibrationProfile).recordingHistory.map fun h => h.originalLUFS))) := by
  have hmap5 : ((⟨"mic", "Mic", 0, -23, 1, 0, 0, [⟨0, 0, 0, 0, 0⟩, ⟨0, 0, 0, 0, 0⟩, ⟨0, 10, 0, 0, 0⟩, ⟨0, 10, 0, 0, 0⟩]⟩ : CalibrationProfile).recordingHistory.map fun h => h.originalLUFS) =
      [0, 0, 10, 10] := rfl
  have hmapn : ((⟨"mic", "Mic", 0, -23, 1, 0, 0, [⟨0, 0, 0, 0, 0⟩, ⟨0, 0, 0, 0, 0⟩, ⟨0, 10, 0, 0, 0⟩, ⟨0, 10, 0, 0, 0⟩]⟩ : CalibrationProfile).recordingHistory.map fun h => h.noiseFloor) =
      [0, 0, 0, 0] := rfl
  have hmaph : ((⟨"mic", "Mic", 0, -23, 1, 0, 0, [⟨0, 0, 0, 0, 0⟩, ⟨0, 0, 0, 0, 0⟩, ⟨0, 501 / 50, 0, 0, 0⟩, ⟨0, 501 / 50, 0, 0, 0⟩]⟩ : CalibrationProfile).recordingHistory.map fun h => h.originalLUFS) =
      [0, 0, 501 / 50, 501 / 50] := rfl
  have hmaphn : ((⟨"mic", "Mic", 0, -23, 1, 0, 0, [⟨0, 0, 0, 0, 0⟩, ⟨0, 0, 0, 0, 0⟩, ⟨0, 501 / 50, 0, 0, 0⟩, ⟨0, 501 / 50, 0, 0, 0⟩]⟩ : CalibrationProfile).recordingHistory.map fun h => h.noiseFloor) =
      [0, 0, 0, 0] := rfl
  have hvar5 : calcVariance [(0 : ℝ), 0, 10, 10] = 25 := by
    norm_num [calcVariance]
  have hvar0 : calcVariance [(0 : ℝ), 0, 0, 0] = 0 := by
    norm_num [calcVariance]
  have hvarh : calcVariance [(0 : ℝ), 0, 501 / 50, 501 / 50] = 251001 / 10000 := by
    norm_num [calcVariance]
  have hstd5 : calcStd [(0 : ℝ), 0, 10, 10] = 5 := by
    unfold calcStd
    rw [if_neg (by norm_num), hvar5,
      show (25 : ℝ) = 5 ^ 2 by norm_num, Real.sqrt_sq (by norm_num : (0 : ℝ) ≤ 5)]
  have hstd0 : calcStd [(0 : ℝ), 0, 0, 0] = 0 := by
    unfold calcStd
    rw [if_neg (by norm_num), hvar0, Real.sqrt_zero]
  have hstdh : 5 < calcStd [(0 : ℝ), 0, 501 / 50, 501 / 50] := by
    unfold calcStd
    rw [if_neg (by norm_num), hvarh]
    rw [Real.lt_sqrt (by norm_num : (0 : ℝ) ≤ 5)]
    norm_num
  have hb := checkRecalibration_variance_boundary (⟨"mic", "Mic", 0, -23, 1, 0, 0, [⟨0, 0, 0, 0, 0⟩, ⟨0, 0, 0, 0, 0⟩, ⟨0, 10, 0, 0, 0⟩, ⟨0, 10, 0, 0, 0⟩]⟩ : CalibrationProfile) 0
  have hc := checkRecalibration_variance_boundary (⟨"mic", "Mic", 0, -23, 1, 0, 0, [⟨0, 0, 0, 0, 0⟩, ⟨0, 0, 0, 0, 0⟩, ⟨0, 501 / 50, 0, 0, 0⟩, ⟨0, 501 / 50, 0, 0, 0⟩]⟩ : CalibrationProfile) 0
  have ha := checkRecalibration_variance_boundary (⟨"mic", "Mic", 0, -23, 1, 0, 0, [⟨0, 0, 0, 0, 0⟩, ⟨0, 0, 0, 0, 0⟩]⟩ : CalibrationProfile) 0
  refine ⟨by norm_num, ha.1 (by norm_num), ?_, ?_, ?_, ?_, ?_⟩
  · rw [hmap5, hstd5]
  · exact hb.2.1 (by norm_num) (by rw [hmap5, hstd5]) (by rw [hmapn, hstd0]; norm_num)
      (by norm_num)
  · rw [hmaph]
    exact hstdh
  · exact (hc.2.2 (by norm_num) (by rw [hmaph]; exact hstdh)
      (by rw [hmaphn, hstd0]; norm_num) (by norm_num)).1
  · exact (hc.2.2 (by norm_num) (by rw [hmaph]; exact hstdh)
      (by rw [hmaphn, hstd0]; norm_num) (by norm_num)).2

end LufsNorm

namespace Analysis

open LufsNorm

/-- C8 (amended): on the analyzed path with a device id, the speech-rate
estimator and the acceleration, response-time and pause analyzers all operate
on the processed (calibrated and normalized) buffer — but the volume analyzer
operates on the raw input buffer, compensated by the device dB offset
`TARGET_LUFS - referenceLevel` instead. -/
theorem analyzeAudioAsync_analyzer_buffers (audioBuffer : Buffer) (sampleRate : ℕ)
    (d : String) (vadMetrics : Option VADMetrics) (sttWordCount : Option ℕ)
    (config : List MetricConfig) (localMethod : Option SpeechRateMethod)
    (store : ProfileStore) (now : ℚ)
    (hspeech : (match vadMetrics with
      | some v => decide (2 / 100 < v.speechRatio) && decide (200 < v.totalSpeechTime)
      | none => true) = true) :
    (analyzeAudioAsync audioBuffer sampleRate (some d) vadMetrics sttWordCount config
        localMethod store now).volume =
      analyzeVolume audioBuffer config
        (match (getCalibrationProfile
            (calibrateAndNormalize store audioBuffer sampleRate (some d)
              ((TARGET_LUFS : ℚ) : ℝ) now).2 d now).1 with
          | some p => TARGET_LUFS - p.referenceLevel
          | none => 0) ∧
    (analyzeAudioAsync audioBuffer sampleRate (some d) vadMetrics sttWordCount config
        localMethod store now).speechRate =
      analyzeSpeechRate
        (calibrateAndNormalize store audioBuffer sampleRate (some d)
          ((TARGET_LUFS : ℚ) : ℝ) now).1.normalized
        sampleRate config
        (match vadMetrics with
          | some v =>
              max (1 / 10)
                (((calibrateAndNormalize store audioBuffer sampleRate (some d)
                    ((TARGET_LUFS : ℚ) : ℝ) now).1.normalized.length : ℚ) / sampleRate -
                  (((calibrateAndNormalize store audioBuffer sampleRate (some d)
                      ((TARGET_LUFS : ℚ) : ℝ) now).1.normalized.length : ℚ) / sampleRate -
                    v.totalSpeechTime / 1000) / 2)
          | none =>
              max (1 / 10)
                (((calibrateAndNormalize store audioBuffer sampleRate (some d)
                    ((TARGET_LUFS : ℚ) : ℝ) now).1.normalized.length : ℚ) / sampleRate))
        (getSpeechRateMethod config localMethod) sttWordCount ∧
    (analyzeAudioAsync audioBuffer sampleRate (some d) vadMetrics sttWordCount config
        localMethod store now).acceleration =
      analyzeAcceleration
        (calibrateAndNormalize store audioBuffer sampleRate (some d)
          ((TARGET_LUFS : ℚ) : ℝ) now).1.normalized sampleRate config ∧
    (analyzeAudioAsync audioBuffer sampleRate (some d) vadMetrics sttWordCount config
        localMethod store now).responseTime =
      analyzeResponseTime
        (calibrateAndNormalize store audioBuffer sampleRate (some d)
          ((TARGET_LUFS : ℚ) : ℝ) now).1.normalized sampleRate config ∧
    (analyzeAudioAsync audioBuffer sampleRate (some d) vadMetrics sttWordCount config
        localMethod store now).pauseManagement =
      analyzePauses
        (calibrateAndNormalize store audioBuffer sampleRate (some d)
          ((TARGET_LUFS : ℚ) : ℝ) now).1.normalized sampleRate config vadMetrics := by
  unfold analyzeAudioAsync
  rw [if_neg (by rw [hspeech]; simp)]
  cases vadMetrics with
  | none => exact ⟨rfl, rfl, rfl, rfl, rfl⟩
  | some v => exact ⟨rfl, rfl, rfl, rfl, rfl⟩

end Analysis

namespace Analysis

open LufsNorm

theorem analyzeAudioAsync_analyzer_buffers_witness :
    ((match (none : Option VADMetrics) with
      | some v => decide (2 / 100 < v.speechRatio) && decide (200 < v.totalSpeechTime)
      | none => true) = true) ∧
    (analyzeAudioAsync [] 10 (some "m") none none [] none [] 0).acceleration =
      analyzeAcceleration
        (calibrateAndNormalize [] [] 10 (some "m") ((TARGET_LUFS : ℚ) : ℝ) 0).1.normalized
        10 [] :=
  ⟨rfl, (analyzeAudioAsync_analyzer_buffers [] 10 "m" none none [] none [] 0 rfl).2.2.1⟩

theorem c8_raw_lufs : calculateLUFS [1, 1, 1, 1, 1] 16 = none :=
  calculateLUFS_eq_none_of_short [1, 1, 1, 1, 1] 16 (by simp)
    (by show 5 ≤ blockSize 16; norm_num [blockSize])

theorem c8_proc_lufs : calculateLUFS [1 / 10, 1 / 10, 1 / 10, 1 / 10, 1 / 10] 16 = none :=
  calculateLUFS_eq_none_of_short [1 / 10, 1 / 10, 1 / 10, 1 / 10, 1 / 10] 16 (by simp)
    (by show 5 ≤ blockSize 16; norm_num [blockSize])

theorem c8_noise : calculateNoiseFloor [1, 1, 1, 1, 1] 16 = some 0 := by
  unfold calculateNoiseFloor
  have hseg : (([1, 1, 1, 1, 1] : Buffer).take (min (16 / 10) ([1, 1, 1, 1, 1] :
      Buffer).length)) = [1] := rfl
  rw [hseg, if_neg (by simp)]
  have hsum : (([1] : Buffer).map fun s => s * s).sum / (([1] : Buffer).length : ℝ) = 1 := by
    norm_num
  rw [hsum, Real.sqrt_one, max_eq_left (by norm_num), Real.logb_one]
  norm_num

end Analysis

namespace Analysis

open LufsNorm

theorem c8_calibrate :
    calibrateAndNormalize [micProfile] [1, 1, 1, 1, 1] 16 (some "mic")
      ((TARGET_LUFS : ℚ) : ℝ) 0 =
    (⟨[1 / 10, 1 / 10, 1 / 10, 1 / 10, 1 / 10], none, none, none, 1 / 10, 1⟩,
     [micProfile2]) := by
  have hget : getCalibrationProfile [micProfile] "mic" 0 = (some micProfile, [micProfile]) :=
    rfl
  have hgain : micProfile.gainAdjustment ≠ 1 := by
    show (1 / 10 : ℝ) ≠ 1
    norm_num
  have hc1 : max (-1 : ℝ) (min 1 ((1 : ℝ) * micProfile.gainAdjustment)) = 1 / 10 := by
    show max (-1 : ℝ) (min 1 ((1 : ℝ) * (1 / 10))) = 1 / 10
    rw [show (1 : ℝ) * (1 / 10) = 1 / 10 by ring, min_eq_right (by norm_num),
      max_eq_right (by norm_num)]
  have hmap : (([1, 1, 1, 1, 1] : Buffer).map fun s =>
      max (-1) (min 1 (s * micProfile.gainAdjustment))) =
      [1 / 10, 1 / 10, 1 / 10, 1 / 10, 1 / 10] := by
    simp only [List.map_cons, List.map_nil, hc1]
  have hnorm : normalizeToLUFS [1 / 10, 1 / 10, 1 / 10, 1 / 10, 1 / 10] 16
      ((TARGET_LUFS : ℚ) : ℝ) = ⟨[1 / 10, 1 / 10, 1 / 10, 1 / 10, 1 / 10], none, 0, 1⟩ := by
    unfold normalizeToLUFS
    rw [c8_proc_lufs]
  unfold calibrateAndNormalize
  dsimp only
  rw [hget]
  dsimp only
  rw [if_pos hgain, hmap, hnorm]
  dsimp only
  rw [c8_raw_lufs, c8_proc_lufs, c8_noise]
  rfl

end Analysis

namespace Analysis

open LufsNorm

theorem c8_db_raw : calculateSegmentDb [1, 1, 1, 1, 1] = some 0 := by
  unfold calculateSegmentDb
  rw [if_neg (by simp)]
  have hsum : (([1, 1, 1, 1, 1] : Buffer).map fun s => s * s).sum /
      (([1, 1, 1, 1, 1] : Buffer).length : ℝ) = 1 := by norm_num
  rw [hsum, Real.sqrt_one, max_eq_left (by norm_num), Real.logb_one]
  norm_num

theorem c8_db_proc : calculateSegmentDb [1 / 10, 1 / 10, 1 / 10, 1 / 10, 1 / 10] =
    some (-20) := by
  unfold calculateSegmentDb
  rw [if_neg (by simp)]
  have hsum : (([1 / 10, 1 / 10, 1 / 10, 1 / 10, 1 / 10] : Buffer).map fun s => s * s).sum /
      (([1 / 10, 1 / 10, 1 / 10, 1 / 10, 1 / 10] : Buffer).length : ℝ) = (1 / 10) ^ 2 := by
    norm_num
  rw [hsum, Real.sqrt_sq (by norm_num : (0 : ℝ) ≤ 1 / 10),
    max_eq_left (by norm_num),
    show (1 / 10 : ℝ) = (10 : ℝ)⁻¹ from by norm_num, Real.logb_inv,
    Real.logb_self_eq_one (by norm_num : (1 : ℝ) < 10)]
  norm_num

theorem c8_volume_raw : (analyzeVolume [1, 1, 1, 1, 1] DEFAULT_CONFIG 0).score = 90 := by
  unfold analyzeVolume
  rw [c8_db_raw]
  dsimp only
  have ht : ((getMetricConfig DEFAULT_CONFIG "volume").map fun m => m.thresholds).getD
      ⟨-35, -15, 0⟩ = ⟨-35, -15, 0⟩ := rfl
  rw [ht]
  have hdb : (0 : ℝ) + ((0 : ℚ) : ℝ) = 0 := by norm_num
  rw [hdb]
  have hraw : volumeScoreRaw 0 ⟨-35, -15, 0⟩ = 90 := by
    unfold volumeScoreRaw
    rw [if_pos (by constructor <;> push_cast <;> norm_num)]
    rw [if_neg (by push_cast; norm_num)]
    push_cast
    norm_num
  rw [hraw]
  rw [show max (0 : ℝ) (min 100 90) = 90 from by
    rw [min_eq_right (by norm_num), max_eq_right (by norm_num)]]
  norm_num [round_eq]

theorem c8_volume_proc :
    (analyzeVolume [1 / 10, 1 / 10, 1 / 10, 1 / 10, 1 / 10] DEFAULT_CONFIG 0).score = 68 := by
  unfold analyzeVolume
  rw [c8_db_proc]
  dsimp only
  have ht : ((getMetricConfig DEFAULT_CONFIG "volume").map fun m => m.thresholds).getD
      ⟨-35, -15, 0⟩ = ⟨-35, -15, 0⟩ := rfl
  rw [ht]
  have hdb : (-20 : ℝ) + ((0 : ℚ) : ℝ) = -20 := by norm_num
  rw [hdb]
  have hraw : volumeScoreRaw (-20) ⟨-35, -15, 0⟩ = 135 / 2 := by
    unfold volumeScoreRaw
    rw [if_neg (by push_cast; norm_num)]
    rw [if_neg (by push_cast; norm_num)]
    rw [if_pos (by push_cast; norm_num)]
    push_cast
    norm_num
  rw [hraw]
  rw [show max (0 : ℝ) (min 100 (135 / 2)) = 135 / 2 from by
    rw [min_eq_right (by norm_num), max_eq_right (by norm_num)]]
  norm_num [round_eq]

end Analysis

namespace Analysis

open LufsNorm

theorem c8_model_volume :
    (analyzeAudioAsync [1, 1, 1, 1, 1] 16 (some "mic") none none DEFAULT_CONFIG none
        [micProfile] 0).volume = analyzeVolume [1, 1, 1, 1, 1] DEFAULT_CONFIG 0 := by
  unfold analyzeAudioAsync
  rw [if_neg (by simp)]
  dsimp only
  rw [c8_calibrate]
  dsimp only
  congr 1
  simp [getCalibrationProfile, micProfile2, List.find?, TARGET_LUFS]

/-- C8 counterexample: with a device whose calibration gain 0.1 changes the
buffer (raw all-ones becomes all 0.1), the pipeline's volume result scores 90
— the raw-buffer score — while the volume analysis of the processed buffer
scores 68. The volume analyzer therefore does not operate on the processed
buffer. -/
theorem analyzeAudioAsync_volume_counterexample :
    (calibrateAndNormalize [micProfile] [1, 1, 1, 1, 1] 16 (some "mic")
        ((TARGET_LUFS : ℚ) : ℝ) 0).1.normalized =
      [1 / 10, 1 / 10, 1 / 10, 1 / 10, 1 / 10] ∧
    ([1 / 10, 1 / 10, 1 / 10, 1 / 10, 1 / 10] : Buffer) ≠ [1, 1, 1, 1, 1] ∧
    (analyzeAudioAsync [1, 1, 1, 1, 1] 16 (some "mic") none none DEFAULT_CONFIG none
        [micProfile] 0).volume.score = 90 ∧
    (analyzeVolume [1 / 10, 1 / 10, 1 / 10, 1 / 10, 1 / 10] DEFAULT_CONFIG 0).score = 68 ∧
    (90 : ℤ) ≠ 68 := by
  refine ⟨by rw [c8_calibrate], ?_, ?_, c8_volume_proc, by norm_num⟩
  · intro h
    rw [List.cons.injEq] at h
    norm_num at h
  · rw [c8_model_volume, c8_volume_raw]

end Analysis
